import Mathlib

/-!
Verification of the graz-library catalog pipeline against its specification.

The Python sources under `src/graz_library` are shallowly embedded below:
pure functions become Lean functions on `String` / `List`, the file cache
becomes an explicit map from keys to entries, `datetime` values become `Nat`
seconds, and Python exceptions become `Except` / `Option` results.  Python
string operations (`strip`, `lower`, `replace`, `in`, `isdigit`) are embedded
for the ASCII-plus-literal-umlaut alphabet actually used by the program.
-/

set_option maxRecDepth 100000

namespace GrazLibrary

/-- Python `str.strip()` whitespace class (ASCII portion). -/
def isPySpace (c : Char) : Bool :=
  c == ' ' || c == '\t' || c == '\n' || c == '\r' || c == '\x0b' || c == '\x0c'

/-- Python `s.strip()` on the character list. -/
def stripChars (l : List Char) : List Char :=
  ((l.dropWhile isPySpace).reverse.dropWhile isPySpace).reverse

/-- Python `s.strip()`. -/
def pyStrip (s : String) : String :=
  ⟨stripChars s.data⟩

/-- Python `s.lower()` (ASCII letters; the program's non-ASCII literals are
already lower-case, which `Char.toLower` leaves unchanged, as Python does). -/
def pyLower (s : String) : String :=
  ⟨s.data.map Char.toLower⟩

/-- Python `s.replace(old, "")` for a single-character `old`: drop every
occurrence of the character. -/
def pyDropChar (c : Char) (s : String) : String :=
  ⟨s.data.filter (fun d => d != c)⟩

/-- Python `s.replace(old, new)` for single characters. -/
def pySubstChar (old new : Char) (s : String) : String :=
  ⟨s.data.map (fun d => if d == old then new else d)⟩

/-- Test that `pat` is an initial segment of `l`. -/
def leadsWith : List Char → List Char → Bool
  | [], _ => true
  | _ :: _, [] => false
  | a :: as, b :: bs => a == b && leadsWith as bs

/-- Test that `pat` occurs as a contiguous segment of `l`. -/
def containsSub (pat : List Char) : List Char → Bool
  | [] => leadsWith pat []
  | c :: cs => leadsWith pat (c :: cs) || containsSub pat cs

/-- Python `needle in hay` on strings (substring test). -/
def pyIn (needle hay : String) : Bool :=
  containsSub needle.data hay.data

/-- Python `s.isdigit()` (false on the empty string). -/
def pyIsDigit (l : List Char) : Bool :=
  !l.isEmpty && l.all Char.isDigit

/-- Python `int(c)` for a digit character (callers guard with `isDigit`). -/
def digitVal (c : Char) : Nat :=
  c.toNat - 48

/-! ## `utils/validators.py` -/

/-- Embeds `validate_isbn10` (validators.py:57-81): character-class check, the
upper-case check-digit check, then the mod-10 checksum the code computes.
An `'X'` among the first nine characters makes Python's `int(digit)` raise
`ValueError`, caught and turned into an error pair.  The empty-input branch
is unreachable: `validate_isbn` only calls this at length 10. -/
def validate_isbn10 (l : List Char) : Bool × Option String :=
  if ¬ (l.all fun c => c.isDigit || c == 'X') then
    (false, some "ISBN-10 must contain only digits (and X as check digit)")
  else
    match l.getLast? with
    | none => (false, none)
    | some last =>
      if ¬ (last.toUpper == last) then
        (false, some "Check digit must be uppercase X")
      else if ¬ (l.dropLast.all Char.isDigit) then
        (false, some "ISBN-10 must contain only digits")
      else
        let checksum :=
          (l.dropLast.enum.map fun p => digitVal p.2 * (10 - p.1)).sum
        let check := (10 - checksum % 10) % 10
        let checkChar := if check == 10 then 'X' else Char.ofNat (48 + check)
        if ¬ (last == checkChar) then (false, some "Invalid ISBN-10 checksum")
        else (true, none)

/-- Embeds `validate_isbn13` (validators.py:84-107): all-digits check, then the
alternating 1/3-weight mod-10 checksum. -/
def validate_isbn13 (l : List Char) : Bool × Option String :=
  if ¬ (pyIsDigit l) then
    (false, some "ISBN-13 must contain only digits")
  else
    match l.getLast? with
    | none => (false, none)
    | some last =>
      let checksum :=
        (l.dropLast.enum.map fun p =>
          digitVal p.2 * (if p.1 % 2 == 0 then 1 else 3)).sum
      let check := (10 - checksum % 10) % 10
      if ¬ (digitVal last == check) then
        (false, some "Invalid ISBN-13 checksum")
      else (true, none)

/-- Embeds `validate_isbn` (validators.py:33-54): reject empty input, strip and
drop hyphens and spaces, dispatch on the cleaned length. -/
def validate_isbn (s : String) : Bool × Option String :=
  if s == "" then (false, some "ISBN must be a non-empty string")
  else
    let cleaned := (pyDropChar ' ' (pyDropChar '-' (pyStrip s))).data
    if cleaned.length == 10 then validate_isbn10 cleaned
    else if cleaned.length == 13 then validate_isbn13 cleaned
    else (false, some ("ISBN must be 10 or 13 characters, got " ++
      toString cleaned.length))

/-- The standard ISBN-10 check (mod 11): the weighted sum of all ten digits
(weights 10 down to 1, `'X'` counting as 10) is divisible by 11.  This is
the algorithm `validate_isbn10`'s own docstring and dead `'X'` branch point
to; the code computes a mod-10 sum instead. -/
def isbn10StandardValid (l : List Char) : Bool :=
  l.length == 10 &&
  (l.all fun c => c.isDigit || c == 'X') &&
  (l.enum.map fun p =>
    (if p.2 == 'X' then 10 else digitVal p.2) * (10 - p.1)).sum % 11 == 0

/-- Embeds `validate_search_query` (validators.py:133-153): reject the empty string,
strip, then require the stripped length to be at least 2 and at most 500. -/
def validate_search_query (q : String) : Bool × Option String :=
  if q == "" then (false, some "Search query must be a non-empty string")
  else
    let s := pyStrip q
    if s.length < 2 then
      (false, some "Search query must be at least 2 characters long")
    else if s.length > 500 then
      (false, some "Search query must not exceed 500 characters")
    else (true, none)

/-! ## `models/book.py`

A Python `Book` instance is a record of its thirteen fields.  Annotations
notwithstanding, at runtime any field can hold `None` when passed
explicitly (the dataclass performs no type check), so every field other
than the two string defaults is an `Option`; the `title`/`medium_type`/
`availability` defaults are `"..."` strings, but a caller may pass `None`,
so they are `Option String` here as well.  `__post_init__` rejects exactly
a falsy (`None` or empty) title, which `bookNew` mirrors. -/

structure Book where
  title : Option String
  author : Option String
  isbn : Option String
  publisher : Option String
  publication_year : Option Int
  medium_type : Option String
  catalog_id : Option String
  availability : Option String
  location : Option String
  call_number : Option String
  description : Option String
  cover_url : Option String
  url : Option String
deriving DecidableEq

/-- Python truthiness of an optional string: `None` and `""` are falsy. -/
def strTruthy : Option String → Bool
  | none => false
  | some s => s != ""

/-- Embeds `Book.__init__` + `Book.__post_init__` (book.py:26-29) applied to a full
field record: raises `ValueError("Book title is required")` iff the title is
falsy, else yields the instance unchanged.  `Book.to_dict` (book.py:40-56)
and reconstruction `Book(**d)` are the identity on this field set. -/
def bookNew (b : Book) : Except String Book :=
  if strTruthy b.title then .ok b else .error "Book title is required"

/-- Embeds `SearchResult` (book.py:59-93).  The dataclass has no `__post_init__`,
so any combination of field values constructs.  `timestamp` is `Nat`
seconds; `search_time_ms` abstracts the float milliseconds to `Int`. -/
structure SearchResult where
  query : String
  books : List Book
  total_results : Int
  search_type : String
  timestamp : Nat
  search_time_ms : Option Int
deriving DecidableEq

/-- Embeds `SearchResult.add_book` (book.py:79-82): append, then re-derive
`total_results` from the new length. -/
def add_book (r : SearchResult) (b : Book) : SearchResult :=
  let books := r.books ++ [b]
  { r with books := books, total_results := (books.length : Int) }

/-! ## `catalog/scraper.py` — cache store and orchestrator

The file cache is modelled as a map from cache key to entry; an entry
carries the serialized `{query, search_type, total_results, books}`
document and the file's modification time.  `Config.CACHE_TTL = 3600`. -/

def CACHE_TTL : Nat := 3600

structure CacheData where
  query : String
  search_type : String
  total_results : Int
  books : List Book
deriving DecidableEq

structure CacheEntry where
  data : CacheData
  mtime : Nat
deriving DecidableEq

def Cache : Type := String → Option CacheEntry

/-- Embeds `WebOPACScraper._get_cache_key` (scraper.py:77-87):
`f"{search_type}_{query.lower().replace(' ', '_')}"`. -/
def getCacheKey (q st : String) : String :=
  st ++ "_" ++ pySubstChar ' ' '_' (pyLower q)

/-- The `[Book(**book_data) for book_data in data.get("books", [])]`
comprehension in `_load_from_cache`: the first raising construction aborts
the comprehension (the surrounding `except` then treats the load as a
miss). -/
def booksFromDicts : List Book → Except String (List Book)
  | [] => .ok []
  | b :: bs =>
    match bookNew b with
    | .error e => .error e
    | .ok b' =>
      match booksFromDicts bs with
      | .error e => .error e
      | .ok bs' => .ok (b' :: bs')

/-- Embeds `WebOPACScraper._load_from_cache` (scraper.py:89-130): missing entry or
age beyond TTL is a miss; otherwise reconstruct the books and the
`SearchResult` (timestamp defaults to now, `search_time_ms` to `None`); any
raising step inside the `try` yields a miss. -/
def loadFromCache (cache : Cache) (key : String) (now : Nat) :
    Option SearchResult :=
  match cache key with
  | none => none
  | some entry =>
    if now - entry.mtime > CACHE_TTL then none
    else
      match booksFromDicts entry.data.books with
      | .error _ => none
      | .ok books =>
        some { query := entry.data.query, books := books,
               total_results := entry.data.total_results,
               search_type := entry.data.search_type,
               timestamp := now, search_time_ms := none }

/-- Embeds `WebOPACScraper._save_to_cache` (scraper.py:132-155): overwrite the
entry for `key` with the serialized result, stamped `now`. -/
def saveToCache (cache : Cache) (key : String) (r : SearchResult) (now : Nat) :
    Cache :=
  fun k =>
    if k = key then some ⟨⟨r.query, r.search_type, r.total_results, r.books⟩, now⟩
    else cache k

/-- Embeds `WebOPACScraper.clear_cache` (scraper.py:320-340): `if query:` is Python
truthiness, so `None` *and the empty string* both take the clear-all branch
(every `*.cache` file, i.e. every key, is removed); a non-empty query
removes exactly the keyword-type key. -/
def clearCache (cache : Cache) (query : Option String) : Cache :=
  match query with
  | some q =>
    if q ≠ "" then
      fun k => if k = getCacheKey q "keyword" then none else cache k
    else fun _ => none
  | none => fun _ => none

/-- Environment for one `search` call: the cache store, the network outcome
for the single GET (`Except` error = any `requests` exception, including
`raise_for_status`), the parser as a total function (its own catch-all
guarantees totality), the clock, and the measured elapsed time. -/
structure SearchEnv where
  cache : Cache
  net : Except String String
  parseHtml : String → List Book
  now : Nat
  elapsedMs : Int

/-- The network branch of `search` (scraper.py:225-282): on a request
exception return `None` with no cache write; on success parse, build the
`SearchResult` with `total_results = len(books)`, stamp the elapsed time,
write the cache, return the result. -/
def searchNetwork (env : SearchEnv) (q st key : String) :
    Option SearchResult × Cache :=
  match env.net with
  | .error _ => (none, env.cache)
  | .ok html =>
    let books := env.parseHtml html
    let r : SearchResult :=
      { query := q, books := books, total_results := (books.length : Int),
        search_type := st, timestamp := env.now,
        search_time_ms := some env.elapsedMs }
    (some r, saveToCache env.cache key r env.now)

/-- Embeds `WebOPACScraper.search` (scraper.py:191-282).  Note `if cached_result:`
uses truthiness, and `SearchResult` defines `__len__`, so a cached result
with zero books is treated as a miss and the network is consulted. -/
def searchModel (env : SearchEnv) (q st : String) (use_cache : Bool) :
    Option SearchResult × Cache :=
  if (validate_search_query q).1 = false then (none, env.cache)
  else
    match (if use_cache then
             loadFromCache env.cache (getCacheKey q st) env.now
           else none) with
    | some r =>
      if r.books.length ≠ 0 then (some r, env.cache)
      else searchNetwork env q st (getCacheKey q st)
    | none => searchNetwork env q st (getCacheKey q st)

/-- Whether the `search` call reaches the GET request: validation passed and
no (truthy) cache hit was returned. -/
def searchUsesNetwork (env : SearchEnv) (q st : String) (use_cache : Bool) :
    Bool :=
  (validate_search_query q).1 &&
  (match (if use_cache then
            loadFromCache env.cache (getCacheKey q st) env.now
          else none) with
   | some r => r.books.isEmpty
   | none => true)

/-! ## Theorems for claims C1 and C2 -/

/-- Claim C1 (code bug): the spec's ISBN-checksum property is the intent of
`validate_isbn10` (docstring, error texts and the otherwise-dead `'X'`
check-digit branch all describe the standard mod-11 checksum), but the code
computes a mod-10 sum.  Consequently the genuinely valid ISBN-10
`"0451524934"` — valid under the standard mod-11 check — is rejected, while
the last-digit mutation `"0451524938"` — invalid under the standard check —
is accepted, contradicting the claim on both counts.  The ISBN-13 parts of
the claim do hold: `"9783833235801"` validates, its check-digit mutation is
rejected, and the hyphenated form cleans and validates. -/
theorem claim_C1_code_eval :
    validate_isbn "0451524934" = (false, some "Invalid ISBN-10 checksum") ∧
    validate_isbn "0451524938" = (true, none) ∧
    isbn10StandardValid "0451524934".data = true ∧
    isbn10StandardValid "0451524938".data = false ∧
    validate_isbn "9783833235801" = (true, none) ∧
    validate_isbn "9783833235800" = (false, some "Invalid ISBN-13 checksum") ∧
    validate_isbn "978-3-8332-3580-1" = (true, none) :=
  ⟨rfl, rfl, rfl, rfl, rfl, rfl, rfl⟩

/-- Claim C2, counterexample: the claim says every 501-character string fails
validation, but the length bound is checked on the *stripped* query, so the
501-character string of 500 `'a'`s followed by a space strips to length 500
and passes. -/
theorem claim_C2_counterexample :
    (String.mk (List.replicate 500 'a' ++ [' '])).length = 501 ∧
    validate_search_query (String.mk (List.replicate 500 'a' ++ [' '])) =
      (true, none) :=
  ⟨rfl, rfl⟩

/-- Claim C2 as amended: `validate_search_query` fails, with a non-absent
error message, exactly when the stripped query has length below 2 (which
covers the empty string) or above 500; in particular the empty string fails,
the 501-character string of `'a'`s (no surrounding whitespace) fails, and
the 2-character string `"ab"` passes. -/
theorem claim_C2_amended :
    (∀ q : String, (validate_search_query q).1 = false ↔
      ((pyStrip q).length < 2 ∨ 500 < (pyStrip q).length)) ∧
    (∀ q : String,
      (validate_search_query q).1 = false → (validate_search_query q).2 ≠ none) ∧
    validate_search_query "" =
      (false, some "Search query must be a non-empty string") ∧
    validate_search_query (String.mk (List.replicate 501 'a')) =
      (false, some "Search query must not exceed 500 characters") ∧
    validate_search_query "ab" = (true, none) := by
  refine ⟨?_, ?_, rfl, rfl, rfl⟩
  · intro q
    unfold validate_search_query
    by_cases h0 : q = ""
    · subst h0
      simp [pyStrip, stripChars]
    · have hb : (q == "") = false := by simp [h0]
      rw [hb]
      simp only [Bool.false_eq_true, if_false]
      split_ifs with h1 h2 <;> simp <;> omega
  · intro q
    unfold validate_search_query
    by_cases h0 : q = ""
    · subst h0
      simp
    · have hb : (q == "") = false := by simp [h0]
      rw [hb]
      simp only [Bool.false_eq_true, if_false]
      split_ifs with h1 h2 <;> simp

/-- Claim C2, witness for the amended theorem: the 1-character query `"x"`
fails, and by the theorem its error message is non-absent. -/
theorem claim_C2_witness :
    (validate_search_query "x").1 = false ∧ (validate_search_query "x").2 ≠ none :=
  ⟨by decide, claim_C2_amended.2.1 "x" (by decide)⟩

/-! ## Shared lemmas about book reconstruction and the cache -/

theorem booksFromDicts_ok_of_truthy (bs : List Book)
    (h : ∀ b ∈ bs, strTruthy b.title = true) :
    booksFromDicts bs = .ok bs := by
  induction bs with
  | nil => rfl
  | cons b rest ih =>
    have hb : strTruthy b.title = true := h b (by simp)
    have hrest : booksFromDicts rest = .ok rest :=
      ih (fun x hx => h x (by simp [hx]))
    simp [booksFromDicts, bookNew, hb, hrest]

theorem booksFromDicts_ok_eq {bs bs' : List Book}
    (h : booksFromDicts bs = .ok bs') : bs' = bs := by
  induction bs generalizing bs' with
  | nil =>
    simp [booksFromDicts] at h
    exact h
  | cons b rest ih =>
    unfold booksFromDicts at h
    cases hbk : bookNew b with
    | error e => rw [hbk] at h; cases h
    | ok b2 =>
      rw [hbk] at h
      cases hrest : booksFromDicts rest with
      | error e => rw [hrest] at h; cases h
      | ok rest2 =>
        rw [hrest] at h
        have hb2 : b2 = b := by
          unfold bookNew at hbk
          split at hbk
          · simp only [Except.ok.injEq] at hbk
            exact hbk.symm
          · cases hbk
        have hr2 : rest2 = rest := ih hrest
        simp only [Except.ok.injEq] at h
        rw [← h, hb2, hr2]

theorem loadFromCache_saveToCache (cache : Cache) (key : String)
    (r : SearchResult) (t now : Nat)
    (hbooks : booksFromDicts r.books = .ok r.books)
    (httl : now - t ≤ CACHE_TTL) :
    loadFromCache (saveToCache cache key r t) key now =
      some { query := r.query, books := r.books,
             total_results := r.total_results,
             search_type := r.search_type,
             timestamp := now, search_time_ms := none } := by
  have hmiss : ¬ (now - t > CACHE_TTL) := by omega
  simp [loadFromCache, saveToCache, hmiss, hbooks]

/-- A sample constructed book (non-empty title). -/
def sampleBook : Book :=
  ⟨some "1984", some "George Orwell", some "0451524934", none, some 1949,
   some "Book", none, some "Available", none, none, none, none, none⟩

/-- The same field record with an empty title. -/
def noTitleBook : Book :=
  { sampleBook with title := some "" }

/-- The empty cache store. -/
def cacheEmpty : Cache := fun _ => none

/-- A sample invariant-satisfying search result. -/
def sampleResult : SearchResult :=
  ⟨"harry potter", [sampleBook], 1, "keyword", 100, some 42⟩

/-! ## Theorems for claims C9 and C4 -/

/-- Claim C9: constructing a `Book` with an absent (`None`) or empty title
raises `ValueError`; construction succeeds unchanged for every non-empty
title whatever the other fields hold; and every successfully constructed
`Book` has a non-empty title. -/
theorem claim_C9 :
    (∀ b : Book, b.title = none ∨ b.title = some "" →
      bookNew b = .error "Book title is required") ∧
    (∀ (b : Book) (s : String), b.title = some s → s ≠ "" →
      bookNew b = .ok b) ∧
    (∀ b b' : Book, bookNew b = .ok b' →
      ∃ s, b'.title = some s ∧ s ≠ "") := by
  refine ⟨?_, ?_, ?_⟩
  · intro b h
    rcases h with h | h <;> simp [bookNew, strTruthy, h]
  · intro b s h hs
    simp [bookNew, strTruthy, h, hs]
  · intro b b' h
    unfold bookNew at h
    rcases hb : b.title with _ | s
    · rw [hb] at h; simp [strTruthy] at h
    · rw [hb] at h
      by_cases hs : s = ""
      · subst hs; simp [strTruthy] at h
      · simp only [strTruthy] at h
        rw [if_pos (by simp [hs])] at h
        simp only [Except.ok.injEq] at h
        exact ⟨s, by rw [← h]; exact hb, hs⟩

/-- Claim C9, witness: `sampleBook` (title `"1984"`) constructs and is
returned unchanged; `noTitleBook` (title `""`) raises. -/
theorem claim_C9_witness :
    bookNew sampleBook = Except.ok sampleBook ∧
    bookNew noTitleBook = Except.error "Book title is required" :=
  ⟨claim_C9.2.1 sampleBook "1984" rfl (by decide),
   claim_C9.1 noTitleBook (Or.inr rfl)⟩

/-- Claim C4: loading right after saving, within the TTL, returns a
`SearchResult` equal to the saved one in `query`, `search_type`,
`total_results`, and in every field of every book, provided no book has a
falsy (`None`/empty) title — a falsy title would make the reconstruction
`Book(**d)` raise and the load be treated as a miss. -/
theorem claim_C4 (cache : Cache) (key : String) (r : SearchResult)
    (t now : Nat)
    (htitles : ∀ b ∈ r.books, strTruthy b.title = true)
    (httl : now - t ≤ CACHE_TTL) :
    ∃ r' : SearchResult,
      loadFromCache (saveToCache cache key r t) key now = some r' ∧
      r'.query = r.query ∧ r'.search_type = r.search_type ∧
      r'.total_results = r.total_results ∧ r'.books = r.books :=
  ⟨_, loadFromCache_saveToCache cache key r t now
        (booksFromDicts_ok_of_truthy _ htitles) httl,
   rfl, rfl, rfl, rfl⟩

/-- Claim C4, witness: a concrete save at time 100 read back at time 600. -/
theorem claim_C4_witness :
    (∀ b ∈ sampleResult.books, strTruthy b.title = true) ∧
    600 - 100 ≤ CACHE_TTL ∧
    ∃ r', loadFromCache
        (saveToCache cacheEmpty "keyword_harry_potter" sampleResult 100)
        "keyword_harry_potter" 600 = some r' ∧
      r'.query = sampleResult.query ∧
      r'.search_type = sampleResult.search_type ∧
      r'.total_results = sampleResult.total_results ∧
      r'.books = sampleResult.books :=
  ⟨by decide, by decide,
   claim_C4 cacheEmpty "keyword_harry_potter" sampleResult 100 600
     (by decide) (by decide)⟩

/-! ## Theorems for claims C3, C6, C10 -/

/-- Claim C3: `search` is total — every call yields `None` or some
`SearchResult` (populated or empty) — and on a validation failure, or on a
network failure whenever the GET is actually reached, it returns `None`
with the cache store unchanged (no cache write). -/
theorem claim_C3 (env : SearchEnv) (q st : String) (uc : Bool) :
    ((validate_search_query q).1 = false →
      searchModel env q st uc = (none, env.cache)) ∧
    (searchUsesNetwork env q st uc = true →
      ∀ e, env.net = .error e →
        searchModel env q st uc = (none, env.cache)) ∧
    ((searchModel env q st uc).1 = none ∨
      ∃ r, (searchModel env q st uc).1 = some r) := by
  refine ⟨?_, ?_, ?_⟩
  · intro h
    unfold searchModel
    rw [if_pos h]
  · intro hnet e he
    unfold searchUsesNetwork at hnet
    simp only [Bool.and_eq_true] at hnet
    obtain ⟨hv, hrest⟩ := hnet
    unfold searchModel
    rw [if_neg (by simp [hv])]
    cases hload : (if uc then loadFromCache env.cache (getCacheKey q st) env.now
        else none) with
    | none =>
      show searchNetwork env q st (getCacheKey q st) = (none, env.cache)
      unfold searchNetwork
      rw [he]
    | some r =>
      rw [hload] at hrest
      have hempty : r.books.length = 0 := by
        have hre : r.books.isEmpty = true := hrest
        simpa [List.isEmpty_iff, List.length_eq_zero] using hre
      show (if r.books.length ≠ 0 then (some r, env.cache)
        else searchNetwork env q st (getCacheKey q st)) = (none, env.cache)
      rw [if_neg (by omega)]
      unfold searchNetwork
      rw [he]
  · cases h : (searchModel env q st uc).1 with
    | none => exact Or.inl rfl
    | some r => exact Or.inr ⟨r, rfl⟩

/-- Environment in which the single GET fails. -/
def envNetFail : SearchEnv :=
  ⟨cacheEmpty, .error "connection refused", fun _ => [], 0, 0⟩

/-- Claim C3, witness: with an empty cache the query `"zz"` reaches the
network; the GET fails and `search` returns `None` with the cache
untouched. -/
theorem claim_C3_witness :
    searchUsesNetwork envNetFail "zz" "keyword" true = true ∧
    searchModel envNetFail "zz" "keyword" true = (none, envNetFail.cache) :=
  ⟨by decide,
   (claim_C3 envNetFail "zz" "keyword" true).2.1 (by decide)
     "connection refused" rfl⟩

/-- If a load from the store succeeds and every stored entry satisfies the
`total_results = len(books)` invariant, the reconstructed result satisfies
it too (the reconstruction copies `total_results` from the entry and the
book list survives `Book(**d)` unchanged). -/
theorem loadFromCache_invariant (cache : Cache) (key : String) (now : Nat)
    (hcache : ∀ k e, cache k = some e →
      e.data.total_results = (e.data.books.length : Int))
    (x : SearchResult) (h : loadFromCache cache key now = some x) :
    x.total_results = (x.books.length : Int) := by
  unfold loadFromCache at h
  split at h
  · cases h
  · rename_i entry hk
    split at h
    · cases h
    · split at h
      · cases h
      · rename_i books hbd
        simp only [Option.some.injEq] at h
        have hbe : books = entry.data.books := booksFromDicts_ok_eq hbd
        rw [← h]
        simpa [hbe] using hcache key entry hk

/-- Claim C6, counterexample: the `SearchResult` dataclass has no
`__post_init__`, so construction does not establish the invariant — this
instance is constructed with `total_results = 5` and an empty book list. -/
theorem claim_C6_counterexample :
    (SearchResult.mk "q" [] 5 "keyword" 0 none).total_results ≠
      (((SearchResult.mk "q" [] 5 "keyword" 0 none).books.length : Int)) := by
  decide

/-- Claim C6 as amended: the invariant is not enforced at construction, but
`add_book` re-establishes it, every result returned by `search` satisfies
it provided every entry of the cache store does (network-built results
satisfy it unconditionally), and a save of an invariant-satisfying result
reproduces an invariant-satisfying result on load. -/
theorem claim_C6_amended :
    (∀ (r : SearchResult) (b : Book),
      (add_book r b).total_results = ((add_book r b).books.length : Int)) ∧
    (∀ (env : SearchEnv) (q st : String) (uc : Bool) (r : SearchResult),
      (∀ k e, env.cache k = some e →
        e.data.total_results = (e.data.books.length : Int)) →
      (searchModel env q st uc).1 = some r →
      r.total_results = (r.books.length : Int)) ∧
    (∀ (cache : Cache) (key : String) (r : SearchResult) (t now : Nat)
      (r' : SearchResult),
      r.total_results = (r.books.length : Int) →
      loadFromCache (saveToCache cache key r t) key now = some r' →
      r'.total_results = (r'.books.length : Int)) := by
  refine ⟨?_, ?_, ?_⟩
  · intro r b
    simp [add_book]
  · intro env q st uc r hcache h
    unfold searchModel at h
    by_cases hv : (validate_search_query q).1 = false
    · rw [if_pos hv] at h; cases h
    · rw [if_neg hv] at h
      have hnetcase : (searchNetwork env q st (getCacheKey q st)).1 = some r →
          r.total_results = (r.books.length : Int) := by
        intro hn
        unfold searchNetwork at hn
        cases hne : env.net with
        | error e => rw [hne] at hn; cases hn
        | ok html =>
          rw [hne] at hn
          simp only [Option.some.injEq] at hn
          rw [← hn]
      cases hload : (if uc then loadFromCache env.cache (getCacheKey q st) env.now
          else none) with
      | none =>
        rw [hload] at h
        exact hnetcase h
      | some r2 =>
        rw [hload] at h
        have h2 : (if r2.books.length ≠ 0 then
              ((some r2 : Option SearchResult), env.cache)
            else searchNetwork env q st (getCacheKey q st)).1 = some r := h
        by_cases hlen : r2.books.length ≠ 0
        · rw [if_pos hlen] at h2
          simp only [Option.some.injEq] at h2
          have hr2 : r2.total_results = (r2.books.length : Int) := by
            cases uc with
            | false => simp at hload
            | true =>
              rw [if_pos rfl] at hload
              exact loadFromCache_invariant env.cache (getCacheKey q st)
                env.now hcache r2 hload
          rw [← h2]
          exact hr2
        · rw [if_neg hlen] at h2
          exact hnetcase h2
  · intro cache key r t now r' hr h
    have hsv : saveToCache cache key r t key =
        some ⟨⟨r.query, r.search_type, r.total_results, r.books⟩, t⟩ := by
      show (if key = key then
          some (⟨⟨r.query, r.search_type, r.total_results, r.books⟩, t⟩ :
            CacheEntry)
        else cache key) = _
      rw [if_pos rfl]
    unfold loadFromCache at h
    rw [hsv] at h
    have h2 : (if now - t > CACHE_TTL then none
        else match booksFromDicts r.books with
          | Except.error _ => none
          | Except.ok books =>
            some { query := r.query, books := books,
                   total_results := r.total_results,
                   search_type := r.search_type,
                   timestamp := now, search_time_ms := none }) = some r' := h
    split at h2
    · cases h2
    · split at h2
      · cases h2
      · rename_i books hbd
        simp only [Option.some.injEq] at h2
        have hbe : books = r.books := booksFromDicts_ok_eq hbd
        rw [← h2]
        simpa [hbe] using hr

/-- Environment with an empty cache and a successful GET whose page parses
to one book. -/
def envNetOk : SearchEnv :=
  ⟨cacheEmpty, .ok "<html>", fun _ => [sampleBook], 7, 3⟩

/-- The result `search` builds in `envNetOk` for the query `"zz"`. -/
def builtResult : SearchResult :=
  ⟨"zz", [sampleBook], 1, "keyword", 7, some 3⟩

/-- Claim C6, witness for the amended theorem: a concrete network-path
search returns `builtResult`, which the theorem shows satisfies the
invariant (the empty cache satisfies the store-wide hypothesis vacuously). -/
theorem claim_C6_witness :
    (searchModel envNetOk "zz" "keyword" false).1 = some builtResult ∧
    builtResult.total_results = (builtResult.books.length : Int) := by
  have hfst : (searchModel envNetOk "zz" "keyword" false).1 = some builtResult := by
    decide
  exact ⟨hfst, claim_C6_amended.2.1 envNetOk "zz" "keyword" false builtResult
    (fun _ _ h => Option.noConfusion h) hfst⟩

/-- The data part of `getCacheKey` laid out as a character list. -/
theorem getCacheKey_data (q st : String) :
    (getCacheKey q st).data =
      st.data ++ '_' :: (pySubstChar ' ' '_' (pyLower q)).data := by
  have h1 : ∀ a b : String, (a ++ b).data = a.data ++ b.data := fun _ _ => rfl
  unfold getCacheKey
  rw [h1, h1, List.append_assoc]
  rfl

/-- Keys of distinct search types differ: the key starts with the type. -/
theorem key_ne_of_head (q : String) (st : String) (c : Char) (rest : List Char)
    (hst : st.data = c :: rest) (hc : c ≠ 'k') :
    getCacheKey q st ≠ getCacheKey q "keyword" := by
  intro h
  have h2 := congrArg String.data h
  rw [getCacheKey_data, getCacheKey_data, hst] at h2
  have h3 := congrArg List.head? h2
  simp only [List.cons_append, List.head?_cons] at h3
  exact hc (Option.some.inj h3)

/-- Claim C10, counterexample: the empty string is a non-absent query, but
`if query:` treats it as falsy, so `clear_cache("")` takes the clear-all
branch and removes every entry — here the title-type entry for that very
query. -/
theorem claim_C10_counterexample :
    getCacheKey "" "title" = "title_" ∧
    (fun k => if k = "title_" then some (⟨⟨"", "title", 0, []⟩, 0⟩ : CacheEntry)
      else none : Cache) "title_" = some ⟨⟨"", "title", 0, []⟩, 0⟩ ∧
    clearCache
      (fun k => if k = "title_" then some ⟨⟨"", "title", 0, []⟩, 0⟩ else none)
      (some "") "title_" = none :=
  ⟨rfl, rfl, rfl⟩

/-- Claim C10 as amended: for every *non-empty* query, `clear_cache`
removes exactly the keyword-type key — every other key, in particular the
title-, author- and isbn-type keys of the same query, is unchanged.  (For
the empty or absent query the clear-all branch runs instead.) -/
theorem claim_C10_amended (cache : Cache) (q : String) (hq : q ≠ "") :
    clearCache cache (some q) (getCacheKey q "keyword") = none ∧
    (∀ k, k ≠ getCacheKey q "keyword" → clearCache cache (some q) k = cache k) ∧
    (∀ st, st = "title" ∨ st = "author" ∨ st = "isbn" →
      clearCache cache (some q) (getCacheKey q st) = cache (getCacheKey q st)) := by
  have hframe : ∀ k, k ≠ getCacheKey q "keyword" →
      clearCache cache (some q) k = cache k := by
    intro k hk
    show (if q ≠ "" then
        (fun k' => if k' = getCacheKey q "keyword" then none else cache k')
      else fun _ => none) k = cache k
    rw [if_pos hq]
    simp [hk]
  refine ⟨?_, hframe, ?_⟩
  · show (if q ≠ "" then
        (fun k' => if k' = getCacheKey q "keyword" then none else cache k')
      else fun _ => none) (getCacheKey q "keyword") = none
    rw [if_pos hq]
    simp
  · intro st hst
    refine hframe _ ?_
    rcases hst with h | h | h <;> subst h
    · exact key_ne_of_head q "title" 't' "itle".data rfl (by decide)
    · exact key_ne_of_head q "author" 'a' "uthor".data rfl (by decide)
    · exact key_ne_of_head q "isbn" 'i' "sbn".data rfl (by decide)

/-- Claim C10, witness for the amended theorem: clearing the non-empty
query `"xy"` leaves the title-type key of `"xy"` unchanged. -/
theorem claim_C10_witness :
    clearCache cacheEmpty (some "xy") (getCacheKey "xy" "title") =
      cacheEmpty (getCacheKey "xy" "title") :=
  (claim_C10_amended cacheEmpty "xy" (by decide)).2.2 "title" (Or.inl rfl)

/-! ## `catalog/parser.py`

The parser consumes BeautifulSoup trees.  The claims touch three facets of
a document, each shallowly embedded by the structure the relevant function
actually observes: the tables of a detail page (`_extract_exemplare_info`),
the availability queries on a result container (`_extract_availability`),
and the class-tagged result containers of a list page
(`parse_search_results`). -/

inductive CellKind
  | th
  | td
deriving DecidableEq

/-- One `<th>`/`<td>` cell and its text content. -/
structure HCell where
  kind : CellKind
  text : String
deriving DecidableEq

/-- One `<tr>` row. -/
structure HRow where
  cells : List HCell
deriving DecidableEq

/-- One `<table>`; a document's tables appear in document order. -/
structure HTable where
  rows : List HRow
deriving DecidableEq

/-- Embeds `row.find_all("td")`: keep only the `<td>` cells. -/
def cellIsTd (c : HCell) : Bool :=
  match c.kind with
  | .td => true
  | .th => false

/-- One copy record (parser.py:290-298): the dict
`{branch, call_number, section, status, reservations, medium_type, barcode}`. -/
structure Exemplar where
  branch : Option String
  call_number : Option String
  sectionName : Option String
  status : String
  reservations : String
  medium_type : Option String
  barcode : Option String
deriving DecidableEq

/-- Embeds `cells[i].get_text(strip=True) if len(cells) > i else None`. -/
def cellText? (cells : List HCell) (i : Nat) : Option String :=
  (cells.get? i).map (fun c => pyStrip c.text)

/-- The status clean-up (parser.py:299-303): a localized "available" token
maps to `Available`, a localized "checked out" token to `Checked Out`,
anything else is kept as scanned. -/
def normalizeCopyStatus (s : String) : String :=
  if pyIn "verfügbar" (pyLower s) then "Available"
  else if pyIn "ausgeliehen" (pyLower s) then "Checked Out"
  else s

/-- The positional row mapping (parser.py:290-298): indices 0-3 are
guaranteed by the `len(cells) >= 4` guard, index 4 defaults to `"0"`,
indices 5 and 7 default to `None`; index 6 is skipped by the code. -/
def rowExemplar (cells : List HCell) : Exemplar :=
  { branch := cellText? cells 0
    call_number := cellText? cells 1
    sectionName := cellText? cells 2
    status := normalizeCopyStatus ((cellText? cells 3).getD "Unknown")
    reservations := (cellText? cells 4).getD "0"
    medium_type := cellText? cells 5
    barcode := cellText? cells 7 }

/-- The header test (parser.py:284-285): the space-joined stripped texts of
the first row's `th`/`td` cells must contain both `"zweigstelle"` and
`"status"` case-insensitively. -/
def headerMatches (r : HRow) : Bool :=
  pyIn "zweigstelle"
    (pyLower (String.intercalate " " (r.cells.map (fun c => pyStrip c.text)))) &&
  pyIn "status"
    (pyLower (String.intercalate " " (r.cells.map (fun c => pyStrip c.text))))

/-- The per-table part of `_extract_exemplare_info` (parser.py:278-306):
skip empty tables and tables whose header row does not match; otherwise map
the data rows with at least 4 `td` cells positionally and keep those whose
branch is truthy. -/
def tableExemplare (t : HTable) : List Exemplar :=
  match t.rows with
  | [] => []
  | hr :: rest =>
    if headerMatches hr then
      rest.filterMap (fun row =>
        let cells := row.cells.filter cellIsTd
        if cells.length ≥ 4 then
          let ex := rowExemplar cells
          if strTruthy ex.branch then some ex else none
        else none)
    else []

/-- Embeds `CatalogParser._extract_exemplare_info` (parser.py:262-311): every
table of the document contributes, in document order. -/
def extract_exemplare_info (tables : List HTable) : List Exemplar :=
  (tables.map tableExemplare).flatten

/-- What `_extract_availability` (parser.py:155-190) observes of a result
container: the first `span`/`p` with an availability/status class (its
text), and the presence of the two visual-indicator `span` classes. -/
structure AvailFacet where
  label : Option String
  visualAvailable : Bool
  visualUnavailable : Bool

/-- Embeds `CatalogParser._extract_availability` (parser.py:155-190): keyword
table over the lower-cased stripped label text, falling through to the raw
lower-cased text; without a label element, visual indicators; else
`Unknown`. -/
def extract_availability (it : AvailFacet) : String :=
  match it.label with
  | some t =>
    if pyIn "available" (pyLower (pyStrip t)) ||
        pyIn "verfügbar" (pyLower (pyStrip t)) then "Available"
    else if pyIn "checked out" (pyLower (pyStrip t)) ||
        pyIn "ausgeliehen" (pyLower (pyStrip t)) then "Checked Out"
    else if pyIn "order" (pyLower (pyStrip t)) ||
        pyIn "bestellt" (pyLower (pyStrip t)) then "On Order"
    else if pyIn "reserved" (pyLower (pyStrip t)) ||
        pyIn "reserviert" (pyLower (pyStrip t)) then "Reserved"
    else pyLower (pyStrip t)
  | none =>
    if it.visualAvailable then "Available"
    else if it.visualUnavailable then "Checked Out"
    else "Unknown"

/-- A result container of a list page: its class attribute and its content
(abstract, consumed only by the item parser). -/
structure Div (α : Type) where
  classes : List String
  content : α
deriving DecidableEq

/-- Membership of one of the primary classes `"result-item"`/`"hit"`
(`find_all("div", class_=["result-item", "hit"])` matches a `div` whose
class attribute includes either). -/
def isPrimaryDiv {α : Type} (d : Div α) : Bool :=
  d.classes.contains "result-item" || d.classes.contains "hit"

/-- Membership of the fallback class `"result"`. -/
def isFallbackDiv {α : Type} (d : Div α) : Bool :=
  d.classes.contains "result"

/-- Embeds `CatalogParser.parse_search_results` (parser.py:21-58): the primary
containers, or — only when there are none — the fallback containers; each
container is parsed in isolation (`_parse_book_item`, abstracted here as
`parseItem`, with `None` covering both a missing title and a caught
per-item exception) and `None` items are dropped. -/
def parse_search_results {α β : Type} (parseItem : α → Option β)
    (doc : List (Div α)) : List β :=
  let primary := doc.filter isPrimaryDiv
  let items := if primary.isEmpty then doc.filter isFallbackDiv else primary
  items.filterMap (fun d => parseItem d.content)

/-! ## Theorems for claims C5, C7, C8 -/

/-- The header row of the claim-C5 example table. -/
def exHeaderRow : HRow :=
  ⟨[⟨.th, "ZWEIGSTELLE"⟩, ⟨.th, "SIGNATUR"⟩, ⟨.th, "STANDORT"⟩,
    ⟨.th, "STATUS"⟩, ⟨.th, "VORBESTELLUNGEN"⟩, ⟨.th, "MEDIENGRUPPE"⟩,
    ⟨.th, "FRIST"⟩, ⟨.th, "BARCODE"⟩]⟩

/-- The claim-C5 example document: the qualifying table with one data row
`Zanklhof | JK.T PET | Ausleihe | Verfügbar | 0 | Kinderbuch | | 1801SB02708`. -/
def exTableDoc : List HTable :=
  [⟨[exHeaderRow,
     ⟨[⟨.td, "Zanklhof"⟩, ⟨.td, "JK.T PET"⟩, ⟨.td, "Ausleihe"⟩,
       ⟨.td, "Verfügbar"⟩, ⟨.td, "0"⟩, ⟨.td, "Kinderbuch"⟩,
       ⟨.td, ""⟩, ⟨.td, "1801SB02708"⟩]⟩]⟩]

/-- Claim C5: copy-table extraction maps the example row to the expected
record, and in general a qualifying data row of exactly 4 cells (with a
truthy branch) maps positionally with `reservations` defaulting to `"0"`
and the out-of-range `medium_type`/`barcode` columns absent. -/
theorem claim_C5 :
    extract_exemplare_info exTableDoc =
      [{ branch := some "Zanklhof", call_number := some "JK.T PET",
         sectionName := some "Ausleihe", status := "Available",
         reservations := "0", medium_type := some "Kinderbuch",
         barcode := some "1801SB02708" }] ∧
    (∀ a b c d : String, pyStrip a ≠ "" →
      extract_exemplare_info
        [⟨[exHeaderRow, ⟨[⟨.td, a⟩, ⟨.td, b⟩, ⟨.td, c⟩, ⟨.td, d⟩]⟩]⟩] =
      [{ branch := some (pyStrip a), call_number := some (pyStrip b),
         sectionName := some (pyStrip c),
         status := normalizeCopyStatus (pyStrip d),
         reservations := "0", medium_type := none, barcode := none }]) := by
  constructor
  · decide
  · intro a b c d ha
    have hh : headerMatches exHeaderRow = true := rfl
    have hb : strTruthy (some (pyStrip a)) = true := by
      simp [strTruthy, ha]
    simp [extract_exemplare_info, tableExemplare, hh, rowExemplar, cellText?,
      cellIsTd, hb]

/-- Claim C5, witness for the general 4-cell clause at concrete texts. -/
theorem claim_C5_witness :
    pyStrip "Hauptbibliothek" ≠ "" ∧
    extract_exemplare_info
      [⟨[exHeaderRow, ⟨[⟨.td, "Hauptbibliothek"⟩, ⟨.td, "JS.E HOF"⟩,
         ⟨.td, "Lesesaal"⟩, ⟨.td, "entliehen"⟩]⟩]⟩] =
    [{ branch := some (pyStrip "Hauptbibliothek"),
       call_number := some (pyStrip "JS.E HOF"),
       sectionName := some (pyStrip "Lesesaal"),
       status := normalizeCopyStatus (pyStrip "entliehen"),
       reservations := "0", medium_type := none, barcode := none }] :=
  ⟨by decide,
   claim_C5.2 "Hauptbibliothek" "JS.E HOF" "Lesesaal" "entliehen" (by decide)⟩

/-- Claim C7: label text containing `Verfügbar` yields `Available`,
`Ausgeliehen` yields `Checked Out`, the reserved branch catches
`reserviert für Sie`, a label text matching none of the keyword table is
returned lower-cased (and stripped) verbatim, and with no label element
and no visual indicator the value is `Unknown`. -/
theorem claim_C7 :
    (∀ v1 v2 : Bool,
      extract_availability ⟨some "Verfügbar", v1, v2⟩ = "Available") ∧
    (∀ v1 v2 : Bool,
      extract_availability ⟨some "Ausgeliehen", v1, v2⟩ = "Checked Out") ∧
    (∀ v1 v2 : Bool,
      extract_availability ⟨some "reserviert für Sie", v1, v2⟩ = "Reserved") ∧
    (∀ (t : String) (v1 v2 : Bool),
      pyIn "available" (pyLower (pyStrip t)) = false →
      pyIn "verfügbar" (pyLower (pyStrip t)) = false →
      pyIn "checked out" (pyLower (pyStrip t)) = false →
      pyIn "ausgeliehen" (pyLower (pyStrip t)) = false →
      pyIn "order" (pyLower (pyStrip t)) = false →
      pyIn "bestellt" (pyLower (pyStrip t)) = false →
      pyIn "reserved" (pyLower (pyStrip t)) = false →
      pyIn "reserviert" (pyLower (pyStrip t)) = false →
      extract_availability ⟨some t, v1, v2⟩ = pyLower (pyStrip t)) ∧
    extract_availability ⟨none, false, false⟩ = "Unknown" := by
  refine ⟨fun v1 v2 => rfl, fun v1 v2 => rfl, fun v1 v2 => rfl,
    ?_, rfl⟩
  intro t v1 v2 h1 h2 h3 h4 h5 h6 h7 h8
  simp [extract_availability, h1, h2, h3, h4, h5, h6, h7, h8]

/-- Claim C7, witness for the unrecognized-status clause: `"vergriffen"`
matches no keyword and is passed through lower-cased. -/
theorem claim_C7_witness :
    pyIn "available" (pyLower (pyStrip "vergriffen")) = false ∧
    extract_availability ⟨some "vergriffen", true, false⟩ =
      pyLower (pyStrip "vergriffen") :=
  ⟨by decide,
   claim_C7.2.2.2.1 "vergriffen" true false (by decide) (by decide)
     (by decide) (by decide) (by decide) (by decide) (by decide) (by decide)⟩

/-- Claim C8: container location short-circuits — when at least one
primary-class (`result-item`/`hit`) container exists, the result is built
from the primary containers only, so `result`-class-only containers
contribute no books (they are not among the parsed containers); the
fallback class is consulted exactly when the primary classes yield zero
containers. -/
theorem claim_C8 {α β : Type} (parseItem : α → Option β) (doc : List (Div α)) :
    (doc.filter isPrimaryDiv ≠ [] →
      parse_search_results parseItem doc =
        (doc.filter isPrimaryDiv).filterMap (fun d => parseItem d.content)) ∧
    (doc.filter isPrimaryDiv = [] →
      parse_search_results parseItem doc =
        (doc.filter isFallbackDiv).filterMap (fun d => parseItem d.content)) ∧
    (∀ d ∈ doc, isPrimaryDiv d = false →
      d ∉ doc.filter isPrimaryDiv) := by
  refine ⟨?_, ?_, ?_⟩
  · intro h
    show List.filterMap (fun d => parseItem d.content)
        (if (List.filter isPrimaryDiv doc).isEmpty = true then
          List.filter isFallbackDiv doc
        else List.filter isPrimaryDiv doc) = _
    rw [if_neg (by simp only [List.isEmpty_iff]; exact h)]
  · intro h
    show List.filterMap (fun d => parseItem d.content)
        (if (List.filter isPrimaryDiv doc).isEmpty = true then
          List.filter isFallbackDiv doc
        else List.filter isPrimaryDiv doc) = _
    rw [if_pos (by simp only [List.isEmpty_iff]; exact h)]
  · intro d _ hp
    simp [List.mem_filter, hp]

/-- A list page with one primary (`hit`) container and one fallback
(`result`) container, contents being the parsed book titles. -/
def mixedDoc : List (Div String) :=
  [⟨["hit"], "Faust"⟩, ⟨["result"], "Werther"⟩]

/-- Claim C8, witness: on `mixedDoc` the primary set is non-empty, so only
the `hit` container's book appears and the `result` container is ignored. -/
theorem claim_C8_witness :
    mixedDoc.filter isPrimaryDiv ≠ [] ∧
    parse_search_results (fun s => some s) mixedDoc =
      (mixedDoc.filter isPrimaryDiv).filterMap (fun d => some d.content) :=
  ⟨by decide, (claim_C8 (fun s => some s) mixedDoc).1 (by decide)⟩

end GrazLibrary
